import Mathlib

/-!
Shallow embedding of the navigation core of the map-ui repository.

Coordinates follow the source's GeoJSON convention: a pair whose first
component is the longitude and whose second component is the latitude
(the source indexes tuples as point[0] = lng, point[1] = lat).
JavaScript numbers are idealised as real numbers; Infinity (returned by
distanceToRouteSegment on short polylines) is modelled with WithTop.
-/

/-- A [lng, lat] pair, as in the source's [number, number] tuples. -/
abbrev Coordinate : Type := ℝ × ℝ

/-- src/types: LocationPoint (the fields the navigation core reads). -/
structure LocationPoint where
  latitude : ℝ
  longitude : ℝ
  timestamp : ℕ
  heading : Option ℝ := none
  speed : Option ℝ := none

/-- src/types: the maneuver descriptor inside NavigationStep. -/
structure Maneuver where
  type : String
  modifier : Option String := none
  location : Coordinate

/-- src/types: NavigationStep. -/
structure NavigationStep where
  distance : ℝ
  duration : ℝ
  instruction : String
  maneuver : Maneuver

/-- src/types: the geometry field of NavigationRoute (GeoJSON LineString). -/
structure RouteGeometry where
  coordinates : List Coordinate
  type : String := "LineString"

/-- src/types: NavigationRoute. -/
structure NavigationRoute where
  distance : ℝ
  duration : ℝ
  geometry : RouteGeometry
  steps : List NavigationStep

/-- src/contexts/NavigationContext.tsx: SelectedLocation, used as the
destination of ActiveNavigationState. -/
structure Destination where
  coordinates : Coordinate
  name : String

/-- src/types: NavigationMode. -/
inductive NavigationMode where
  | idle
  | preview
  | active
deriving DecidableEq

/-- src/types: ActiveNavigationState.  eta is a timestamp in ms (a Date). -/
structure ActiveNavigationState where
  mode : NavigationMode
  route : Option NavigationRoute
  destination : Option Destination
  origin : Option Coordinate
  currentStepIndex : ℕ
  distanceToNextManeuver : ℝ
  isOffRoute : Bool
  isRerouting : Bool
  eta : Option ℝ
  remainingDistance : ℝ
  remainingDuration : ℝ

/-- src/contexts/NavigationContext.tsx: initialNavigationState. -/
def initialNavigationState : ActiveNavigationState :=
  { mode := .idle
    route := none
    destination := none
    origin := none
    currentStepIndex := 0
    distanceToNextManeuver := 0
    isOffRoute := false
    isRerouting := false
    eta := none
    remainingDistance := 0
    remainingDuration := 0 }

/-- JavaScript's Math.atan2.  The haversine code only ever reaches the
first branch (its second argument is a square root that is strictly
positive there). -/
noncomputable def atan2 (y x : ℝ) : ℝ :=
  if 0 < x then Real.arctan (y / x)
  else if x < 0 ∧ 0 ≤ y then Real.arctan (y / x) + Real.pi
  else if x < 0 ∧ y < 0 then Real.arctan (y / x) - Real.pi
  else if x = 0 ∧ 0 < y then Real.pi / 2
  else if x = 0 ∧ y < 0 then -(Real.pi / 2)
  else 0

/-- src/components/Navigation/ActiveNavigationView.tsx:
calculateDistanceBetweenPoints — haversine distance in meters,
Earth radius 6,371,000 m. -/
noncomputable def calculateDistanceBetweenPoints (point1 point2 : Coordinate) : ℝ :=
  let R : ℝ := 6371000
  let lat1 := point1.2 * Real.pi / 180
  let lat2 := point2.2 * Real.pi / 180
  let deltaLat := (point2.2 - point1.2) * Real.pi / 180
  let deltaLon := (point2.1 - point1.1) * Real.pi / 180
  let a := Real.sin (deltaLat / 2) * Real.sin (deltaLat / 2) +
      Real.cos lat1 * Real.cos lat2 * Real.sin (deltaLon / 2) * Real.sin (deltaLon / 2)
  let c := 2 * atan2 (Real.sqrt a) (Real.sqrt (1 - a))
  R * c

/-- The loop of distanceToRouteSegment: for each consecutive pair of
route coordinates, fold the distances to both endpoints into the running
minimum (the accumulator starts at Infinity). -/
noncomputable def segmentLoop (point : Coordinate) :
    List Coordinate → WithTop ℝ → WithTop ℝ
  | a :: b :: rest, minDistance =>
      segmentLoop point (b :: rest)
        (min (min minDistance ((calculateDistanceBetweenPoints point a : ℝ) : WithTop ℝ))
          ((calculateDistanceBetweenPoints point b : ℝ) : WithTop ℝ))
  | _, minDistance => minDistance

/-- src/components/Navigation/ActiveNavigationView.tsx:
distanceToRouteSegment.  Returns Infinity (⊤) when the polyline has
fewer than 2 points. -/
noncomputable def distanceToRouteSegment (point : Coordinate)
    (routeCoordinates : List Coordinate) : WithTop ℝ :=
  if routeCoordinates.length < 2 then ⊤
  else segmentLoop point routeCoordinates ⊤

/-- src/contexts/NavigationContext.tsx: calculateETA — now plus the
remaining duration in seconds, as a ms timestamp. -/
noncomputable def calculateETA (now remainingDuration : ℝ) : ℝ :=
  now + remainingDuration * 1000

/-- The pattern route.steps[i]?.distance or 0, used by setPreviewRoute,
updateRoute and processLocationUpdate. -/
noncomputable def stepDistanceOr0 (route : NavigationRoute) (i : ℕ) : ℝ :=
  match route.steps.get? i with
  | some st => st.distance
  | none => 0

/-- src/contexts/NavigationContext.tsx: setPreviewRoute.  The parameter
now is the clock read by calculateETA. -/
noncomputable def setPreviewRoute (now : ℝ) (route : NavigationRoute)
    (destination : Destination) (origin : Coordinate) : ActiveNavigationState :=
  { mode := .preview
    route := some route
    destination := some destination
    origin := some origin
    currentStepIndex := 0
    distanceToNextManeuver := stepDistanceOr0 route 0
    isOffRoute := false
    isRerouting := false
    eta := some (calculateETA now route.duration)
    remainingDistance := route.distance
    remainingDuration := route.duration }

/-- src/contexts/NavigationContext.tsx: startActiveNavigation — sets
mode to active when a route is present, otherwise does nothing. -/
def startActiveNavigation (s : ActiveNavigationState) : ActiveNavigationState :=
  match s.route with
  | some _ => { s with mode := .active }
  | none => s

/-- src/contexts/NavigationContext.tsx: updateNavigationProgress.
Sums step distances and durations from currentStepIndex onward,
replaces the current step's distance with distanceToNextManeuver, and
records the sample coordinate as the new origin. -/
noncomputable def updateNavigationProgress (now : ℝ) (currentLocation : Coordinate)
    (distanceToNextManeuver : ℝ) (currentStepIndex : ℕ)
    (prev : ActiveNavigationState) : ActiveNavigationState :=
  match prev.route with
  | none => prev
  | some route =>
      let tail := route.steps.drop currentStepIndex
      let remainingDistance0 := (tail.map (fun st => st.distance)).sum
      let remainingDuration := (tail.map (fun st => st.duration)).sum
      let currentStepDistance := stepDistanceOr0 route currentStepIndex
      let remainingDistance := remainingDistance0 - currentStepDistance + distanceToNextManeuver
      { prev with
        currentStepIndex := currentStepIndex
        distanceToNextManeuver := distanceToNextManeuver
        remainingDistance := max 0 remainingDistance
        remainingDuration := max 0 remainingDuration
        eta := some (calculateETA now remainingDuration)
        origin := some currentLocation }

/-- src/contexts/NavigationContext.tsx: setOffRoute. -/
def setOffRoute (isOffRoute : Bool) (prev : ActiveNavigationState) : ActiveNavigationState :=
  { prev with isOffRoute := isOffRoute }

/-- src/contexts/NavigationContext.tsx: setRerouting.  Note the source:
isOffRoute is kept only when isRerouting is set to true; setting it to
false also forces isOffRoute to false. -/
def setRerouting (isRerouting : Bool) (prev : ActiveNavigationState) : ActiveNavigationState :=
  { prev with
    isRerouting := isRerouting
    isOffRoute := if isRerouting then prev.isOffRoute else false }

/-- src/contexts/NavigationContext.tsx: updateRoute (applied after a
successful reroute). -/
noncomputable def updateRoute (now : ℝ) (route : NavigationRoute)
    (prev : ActiveNavigationState) : ActiveNavigationState :=
  { prev with
    route := some route
    currentStepIndex := 0
    distanceToNextManeuver := stepDistanceOr0 route 0
    isOffRoute := false
    isRerouting := false
    remainingDistance := route.distance
    remainingDuration := route.duration
    eta := some (calculateETA now route.duration) }

/-- src/contexts/NavigationContext.tsx: endNavigation — resets to the
initial (idle) state. -/
def endNavigation (_ : ActiveNavigationState) : ActiveNavigationState :=
  initialNavigationState

/-- src/contexts/NavigationContext.tsx: NavigationContext thresholds in
ActiveNavigationView. -/
def STEP_ADVANCE_THRESHOLD : ℝ := 30

/-- Arrival threshold of processLocationUpdate (meters). -/
def ARRIVAL_THRESHOLD : ℝ := 30

/-- Off-route threshold of processLocationUpdate (meters). -/
def OFF_ROUTE_THRESHOLD : ℝ := 50

/-- The arrival test of processLocationUpdate: a destination is set,
the (pre-advancement) currentStepIndex is at the last step, and the
sample is within ARRIVAL_THRESHOLD of the destination coordinate. -/
noncomputable def arrivalCondition (nav : ActiveNavigationState)
    (route : NavigationRoute) (currentPoint : Coordinate) : Prop :=
  match nav.destination with
  | some dest =>
      route.steps.length - 1 ≤ nav.currentStepIndex ∧
      calculateDistanceBetweenPoints currentPoint dest.coordinates < ARRIVAL_THRESHOLD
  | none => False

open Classical in
/-- src/components/Navigation/ActiveNavigationView.tsx:
processLocationUpdate.  Pure rendering (map.easeTo) is omitted; the
state effect of the arrival branch is endNavigation.  The source calls
setOffRoute only when the flag changes; the resulting state is the same
as always storing the freshly computed flag. -/
noncomputable def processLocationUpdate (now : ℝ) (nav : ActiveNavigationState)
    (location : LocationPoint) : ActiveNavigationState :=
  match nav.route with
  | none => nav
  | some route =>
      if route.steps.length = 0 then nav
      else
        match route.steps.get? nav.currentStepIndex with
        | none => nav
        | some currentStep =>
            let currentPoint : Coordinate := (location.longitude, location.latitude)
            let distanceToManeuver :=
              calculateDistanceBetweenPoints currentPoint currentStep.maneuver.location
            let newStepIndex :=
              if distanceToManeuver < STEP_ADVANCE_THRESHOLD ∧
                  nav.currentStepIndex < route.steps.length - 1
              then nav.currentStepIndex + 1
              else nav.currentStepIndex
            if arrivalCondition nav route currentPoint then endNavigation nav
            else
              let isCurrentlyOffRoute : Bool :=
                decide ((OFF_ROUTE_THRESHOLD : WithTop ℝ) <
                  distanceToRouteSegment currentPoint route.geometry.coordinates)
              let newDistanceToManeuver :=
                if newStepIndex = nav.currentStepIndex then distanceToManeuver
                else stepDistanceOr0 route newStepIndex
              updateNavigationProgress now currentPoint newDistanceToManeuver newStepIndex
                (setOffRoute isCurrentlyOffRoute nav)

/-- The duplicate test of the location-watch effect: same timestamp,
same latitude, same longitude as the last processed sample. -/
def isDuplicate : Option LocationPoint → LocationPoint → Prop
  | none, _ => False
  | some l, c => l.timestamp = c.timestamp ∧ l.latitude = c.latitude ∧ l.longitude = c.longitude

open Classical in
/-- src/components/Navigation/ActiveNavigationView.tsx: the location
watch effect — a sample equal to the last processed one (timestamp and
coordinate) is skipped; otherwise it is recorded and processed. -/
noncomputable def handleLocationUpdate (now : ℝ) (lastProcessed : Option LocationPoint)
    (nav : ActiveNavigationState) (location : LocationPoint) :
    Option LocationPoint × ActiveNavigationState :=
  if isDuplicate lastProcessed location then (lastProcessed, nav)
  else (some location, processLocationUpdate now nav location)

/-- The state the rerouting coordinator sees: the navigation context
state together with the component refs of ActiveNavigationView
(lastProcessedLocationRef, rerouteTimeoutRef, isReroutingRef) and a
count of calculateRoute invocations. -/
structure CoordState where
  nav : ActiveNavigationState
  lastProcessed : Option LocationPoint
  rerouteTimeout : Option ℕ
  isReroutingRef : Bool
  calls : ℕ

/-- The external events that drive the single-threaded coordinator:
a position sample, the debounce timeout callback firing at its
scheduled time, the resolution of the in-flight calculateRoute call
(some route on success, none on failure), and the user ending the
session. -/
inductive RerouteEv where
  | sample (loc : LocationPoint)
  | fire (t : ℕ)
  | resolve (t : ℕ) (result : Option NavigationRoute)
  | endNav (t : ℕ)

/-- The reroute-debounce effect of ActiveNavigationView: it clears any
existing timeout, then re-arms a 3000 ms timeout exactly when the state
is off-route, not rerouting, and a current location exists. -/
def rerouteEffect (t : ℕ) (s : CoordState) : CoordState :=
  { s with rerouteTimeout :=
      if s.nav.isOffRoute = true ∧ s.nav.isRerouting = false ∧ s.lastProcessed.isSome = true
      then some (t + 3000)
      else none }

open Classical in
/-- One reaction of the coordinator to an external event, following the
source: a non-duplicate sample is processed and then the debounce
effect re-runs; a live timeout runs handleReroute (a no-op if
a request is already in flight or no destination is set, and otherwise,
with the access token assumed present, marking rerouting and issuing
the calculateRoute call); a resolution of
the in-flight call applies updateRoute on success and then clears the
rerouting flags; ending the session resets the navigation state, which
re-runs the effect and so clears any pending timeout (the in-flight
ref, a component ref, survives). -/
noncomputable def rerouteStep (s : CoordState) : RerouteEv → CoordState
  | .sample loc =>
      if isDuplicate s.lastProcessed loc then s
      else
        rerouteEffect loc.timestamp
          { s with
            nav := processLocationUpdate (loc.timestamp : ℝ) s.nav loc
            lastProcessed := some loc }
  | .fire t =>
      if s.rerouteTimeout = some t then
        if s.isReroutingRef = true ∨ s.nav.destination = none then
          { s with rerouteTimeout := none }
        else
          { s with
            rerouteTimeout := none
            nav := setRerouting true s.nav
            isReroutingRef := true
            calls := s.calls + 1 }
      else s
  | .resolve t result =>
      if s.isReroutingRef = true then
        { s with
          nav := setRerouting false
            (match result with
             | some r => updateRoute (t : ℝ) r s.nav
             | none => s.nav)
          isReroutingRef := false
          rerouteTimeout := none }
      else s
  | .endNav _ =>
      { s with nav := initialNavigationState, rerouteTimeout := none }

/-- Run the coordinator over a list of events. -/
noncomputable def rerouteRun (s : CoordState) : List RerouteEv → CoordState
  | [] => s
  | e :: evs => rerouteRun (rerouteStep s e) evs

theorem rerouteRun_append (s : CoordState) (l1 l2 : List RerouteEv) :
    rerouteRun s (l1 ++ l2) = rerouteRun (rerouteRun s l1) l2 := by
  induction l1 generalizing s with
  | nil => simp [rerouteRun]
  | cons e l ih => simp [rerouteRun, ih]

/-- Haversine distance between two points on the same meridian: the
Earth radius times the latitude difference in radians (for a small
nonnegative difference, where the arc stays within a quarter circle). -/
theorem dist_meridian (lng lat1 lat2 : ℝ) (h0 : 0 ≤ lat2 - lat1) (h1 : lat2 - lat1 ≤ 1) :
    calculateDistanceBetweenPoints (lng, lat1) (lng, lat2) =
      6371000 * ((lat2 - lat1) * Real.pi / 180) := by
  have hpi : 0 < Real.pi := Real.pi_pos
  obtain ⟨x, hxdef⟩ : ∃ x : ℝ, x = (lat2 - lat1) * Real.pi / 360 := ⟨_, rfl⟩
  have hx0 : 0 ≤ x := by
    rw [hxdef]
    exact div_nonneg (mul_nonneg h0 hpi.le) (by norm_num)
  have hmul : (lat2 - lat1) * Real.pi ≤ Real.pi := by
    have := mul_le_mul_of_nonneg_right h1 hpi.le
    simpa using this
  have hx2 : x < Real.pi / 2 := by
    rw [hxdef]
    nlinarith
  have hsin : 0 ≤ Real.sin x := Real.sin_nonneg_of_nonneg_of_le_pi hx0 (by linarith)
  have hcos : 0 < Real.cos x := Real.cos_pos_of_mem_Ioo ⟨by linarith, hx2⟩
  have hsq : Real.sqrt (Real.sin x * Real.sin x) = Real.sin x := Real.sqrt_mul_self hsin
  have hone : (1 : ℝ) - Real.sin x * Real.sin x = Real.cos x * Real.cos x := by
    nlinarith [Real.sin_sq_add_cos_sq x]
  have hsq2 : Real.sqrt (1 - Real.sin x * Real.sin x) = Real.cos x := by
    rw [hone]
    exact Real.sqrt_mul_self hcos.le
  have hat : atan2 (Real.sin x) (Real.cos x) = x := by
    unfold atan2
    rw [if_pos hcos, ← Real.tan_eq_sin_div_cos, Real.arctan_tan (by linarith) hx2]
  have e1 : (lat2 - lat1) * Real.pi / 180 / 2 = x := by
    rw [hxdef]; ring
  have e2 : ((lng - lng) * Real.pi / 180 : ℝ) / 2 = 0 := by ring
  unfold calculateDistanceBetweenPoints
  simp only [e1, e2, Real.sin_zero, mul_zero, add_zero]
  rw [hsq, hsq2, hat, hxdef]
  ring

/-- Haversine distance of a point to itself is 0. -/
theorem calculateDistance_self (p : Coordinate) : calculateDistanceBetweenPoints p p = 0 := by
  have h := dist_meridian p.1 p.2 p.2 (by simp) (by simp)
  simpa using h

/-- The concrete advancement distance of the spec scenario:
(0, 0.0039) is about 11 m from the maneuver at (0, 0.004), under the
30 m advancement threshold. -/
theorem dist_scenario_lt_threshold :
    calculateDistanceBetweenPoints ((0 : ℝ), (0.0039 : ℝ)) ((0 : ℝ), (0.004 : ℝ)) <
      STEP_ADVANCE_THRESHOLD := by
  rw [dist_meridian 0 0.0039 0.004 (by norm_num) (by norm_num), STEP_ADVANCE_THRESHOLD]
  nlinarith [Real.pi_lt_d2, Real.pi_pos]

/-- Step 0 of the spec's concrete scenario: 400 m, 40 s, maneuver at
(lng 0, lat 0.004). -/
noncomputable def stepA : NavigationStep :=
  { distance := 400, duration := 40, instruction := "head north",
    maneuver := { type := "turn", location := ((0 : ℝ), (0.004 : ℝ)) } }

/-- Step 1 of the spec's concrete scenario: 600 m, 80 s, maneuver at
(lng 0, lat 0.01). -/
noncomputable def stepB : NavigationStep :=
  { distance := 600, duration := 80, instruction := "arrive",
    maneuver := { type := "arrive", location := ((0 : ℝ), (0.01 : ℝ)) } }

/-- The two-step route of the spec's concrete scenario. -/
noncomputable def routeR : NavigationRoute :=
  { distance := 1000, duration := 120,
    geometry := { coordinates := [((0 : ℝ), (0 : ℝ)), ((0 : ℝ), (0.01 : ℝ))],
                  type := "LineString" },
    steps := [stepA, stepB] }

/-- The destination of the spec's concrete scenario. -/
noncomputable def destR : Destination :=
  { coordinates := ((0 : ℝ), (0.01 : ℝ)), name := "target" }

/-- The scenario position sample at (lng 0, lat 0.0039). -/
noncomputable def locR : LocationPoint :=
  { latitude := 0.0039, longitude := 0, timestamp := 1000 }

/-- State after setPreviewRoute of the scenario (clock at 0). -/
noncomputable def previewR : ActiveNavigationState :=
  setPreviewRoute 0 routeR destR ((0 : ℝ), (0 : ℝ))

/-- State after startActive of the scenario. -/
noncomputable def activeR : ActiveNavigationState :=
  startActiveNavigation previewR

/-- State after feeding the (0, 0.0039) sample to the active scenario. -/
noncomputable def afterSampleR : ActiveNavigationState :=
  processLocationUpdate 1000 activeR locR

/-- An index inside a list is witnessed by get?. -/
theorem length_ne_zero_of_get? {l : List NavigationStep} {i : ℕ} {st : NavigationStep}
    (h : l.get? i = some st) : ¬ l.length = 0 := by
  obtain ⟨h1, -⟩ := List.get?_eq_some.mp h
  omega

/-- Reduction of processLocationUpdate when the sample is within the
advancement threshold of the current maneuver, the current step is not
the last one, and the arrival test fails. -/
theorem processLocationUpdate_advance (now : ℝ) (nav : ActiveNavigationState)
    (loc : LocationPoint) (route : NavigationRoute) (st : NavigationStep)
    (hr : nav.route = some route)
    (hst : route.steps.get? nav.currentStepIndex = some st)
    (hadv : calculateDistanceBetweenPoints (loc.longitude, loc.latitude) st.maneuver.location <
      STEP_ADVANCE_THRESHOLD)
    (hlt : nav.currentStepIndex < route.steps.length - 1)
    (harr : ¬ arrivalCondition nav route (loc.longitude, loc.latitude)) :
    processLocationUpdate now nav loc =
      updateNavigationProgress now (loc.longitude, loc.latitude)
        (stepDistanceOr0 route (nav.currentStepIndex + 1)) (nav.currentStepIndex + 1)
        (setOffRoute (decide ((OFF_ROUTE_THRESHOLD : WithTop ℝ) <
          distanceToRouteSegment (loc.longitude, loc.latitude) route.geometry.coordinates)) nav) := by
  have hlen := length_ne_zero_of_get? hst
  unfold processLocationUpdate
  rw [hr]
  simp only [hlen, if_false, hst]
  have hcond : calculateDistanceBetweenPoints (loc.longitude, loc.latitude)
      st.maneuver.location < STEP_ADVANCE_THRESHOLD ∧
      nav.currentStepIndex < route.steps.length - 1 := ⟨hadv, hlt⟩
  rw [if_neg harr, if_pos hcond, if_neg (Nat.succ_ne_self nav.currentStepIndex)]

/-- Reduction of processLocationUpdate when the arrival test succeeds:
the state is reset to the initial idle state. -/
theorem processLocationUpdate_arrival (now : ℝ) (nav : ActiveNavigationState)
    (loc : LocationPoint) (route : NavigationRoute) (st : NavigationStep)
    (hr : nav.route = some route)
    (hst : route.steps.get? nav.currentStepIndex = some st)
    (harr : arrivalCondition nav route (loc.longitude, loc.latitude)) :
    processLocationUpdate now nav loc = initialNavigationState := by
  have hlen := length_ne_zero_of_get? hst
  unfold processLocationUpdate
  rw [hr]
  simp only [hlen, if_false, hst]
  rw [if_pos harr]
  rfl

/-- Reduction of updateNavigationProgress when a route is present. -/
theorem updateNavigationProgress_eq (now : ℝ) (p : Coordinate) (d : ℝ) (i : ℕ)
    (prev : ActiveNavigationState) (route : NavigationRoute)
    (hr : prev.route = some route) :
    updateNavigationProgress now p d i prev =
      { prev with
        currentStepIndex := i
        distanceToNextManeuver := d
        remainingDistance := max 0 ((((route.steps.drop i).map (fun st => st.distance)).sum -
          stepDistanceOr0 route i) + d)
        remainingDuration := max 0 (((route.steps.drop i).map (fun st => st.duration)).sum)
        eta := some (calculateETA now (((route.steps.drop i).map (fun st => st.duration)).sum))
        origin := some p } := by
  unfold updateNavigationProgress
  rw [hr]

/-- The scenario sample advances the step index and leaves 600 m
remaining (the full distance of the new current step). -/
theorem afterSampleR_fields :
    afterSampleR.currentStepIndex = 1 ∧ afterSampleR.remainingDistance = 600 := by
  have hidx : activeR.currentStepIndex = 0 := rfl
  have hlen : routeR.steps.length = 2 := rfl
  have hlt : activeR.currentStepIndex < routeR.steps.length - 1 := by
    rw [hidx, hlen]
    omega
  have harr : ¬ arrivalCondition activeR routeR (locR.longitude, locR.latitude) := by
    intro h
    have h1 : routeR.steps.length - 1 ≤ activeR.currentStepIndex := h.1
    rw [hidx, hlen] at h1
    omega
  have h := processLocationUpdate_advance 1000 activeR locR routeR stepA rfl rfl
    dist_scenario_lt_threshold hlt harr
  have hroute : (setOffRoute (decide ((OFF_ROUTE_THRESHOLD : WithTop ℝ) <
      distanceToRouteSegment (locR.longitude, locR.latitude)
        routeR.geometry.coordinates)) activeR).route = some routeR := rfl
  have h2 := updateNavigationProgress_eq 1000 (locR.longitude, locR.latitude)
    (stepDistanceOr0 routeR (activeR.currentStepIndex + 1)) (activeR.currentStepIndex + 1)
    _ routeR hroute
  constructor
  · show afterSampleR.currentStepIndex = 1
    unfold afterSampleR
    rw [h, h2]
    rfl
  · show afterSampleR.remainingDistance = 600
    unfold afterSampleR
    rw [h, h2]
    show max 0 ((((routeR.steps.drop 1).map (fun st => st.distance)).sum -
      stepDistanceOr0 routeR 1) + stepDistanceOr0 routeR 1) = 600
    have hdrop : routeR.steps.drop 1 = [stepB] := rfl
    have hsd : stepDistanceOr0 routeR 1 = 600 := rfl
    rw [hdrop, hsd]
    norm_num [stepB]

/-- C3 counterexample: in the spec's concrete scenario the sample at
(0, 0.0039) advances the step index to 1 but sets remainingDistance to
exactly 600, not approximately 611 = 600 + 11 — the code replaces the
distance left in the new step by that step's full distance, so the
claimed 11 m contribution is absent (600 is 11 m away from 611). -/
theorem c3_scenario_counterexample :
    afterSampleR.currentStepIndex = 1 ∧
    afterSampleR.remainingDistance = 600 ∧
    afterSampleR.remainingDistance ≠ 611 ∧
    |afterSampleR.remainingDistance - 611| = 11 := by
  obtain ⟨h1, h2⟩ := afterSampleR_fields
  refine ⟨h1, h2, ?_, ?_⟩
  · rw [h2]; norm_num
  · rw [h2]; rw [abs_of_nonpos (by norm_num)]; norm_num

/-- C3 amended: setPreviewRoute on the scenario route then startActive
yields mode active, currentStepIndex 0, distanceToNextManeuver 400 and
remainingDistance 1000; feeding the sample at (0, 0.0039) (about 11 m
from step 0's maneuver) advances currentStepIndex to 1 and sets
remainingDistance to exactly 600, the full distance of the new current
step (advancement resets distanceToNextManeuver to the new step's
distance, discarding the distance already inside the step). -/
theorem c3_scenario_amended :
    previewR.mode = NavigationMode.preview ∧
    activeR.mode = NavigationMode.active ∧
    activeR.currentStepIndex = 0 ∧
    activeR.distanceToNextManeuver = 400 ∧
    activeR.remainingDistance = 1000 ∧
    calculateDistanceBetweenPoints (locR.longitude, locR.latitude)
      stepA.maneuver.location < STEP_ADVANCE_THRESHOLD ∧
    afterSampleR.currentStepIndex = 1 ∧
    afterSampleR.remainingDistance = 600 := by
  obtain ⟨h1, h2⟩ := afterSampleR_fields
  exact ⟨rfl, rfl, rfl, rfl, rfl, dist_scenario_lt_threshold, h1, h2⟩

/-- The navigation state used in the C1 counterexample: active on a
two-step route whose first maneuver point coincides with the
destination, current step index 0. -/
noncomputable def navC1 : ActiveNavigationState :=
  { mode := .active
    route := some routeR
    destination := some { coordinates := ((0 : ℝ), (0.004 : ℝ)), name := "D" }
    origin := some ((0 : ℝ), (0 : ℝ))
    currentStepIndex := 0
    distanceToNextManeuver := 400
    isOffRoute := false
    isRerouting := false
    eta := none
    remainingDistance := 1000
    remainingDuration := 120 }

/-- The C1 counterexample sample, exactly at the first maneuver point
(which is also the destination coordinate). -/
noncomputable def locC1 : LocationPoint :=
  { latitude := 0.004, longitude := 0, timestamp := 2000 }

/-- C1 counterexample: a sample that advances the step index onto the
last step (post-advancement currentStepIndex = 1, the last step) and is
within 30 m of the destination, yet the state does not transition to
idle — the source's arrival test reads the pre-advancement step index,
so the session stays active with the route still set. -/
theorem c1_arrival_post_advance_counterexample :
    (processLocationUpdate 2000 navC1 locC1).currentStepIndex = 1 ∧
    routeR.steps.length - 1 = 1 ∧
    calculateDistanceBetweenPoints (locC1.longitude, locC1.latitude)
      ((0 : ℝ), (0.004 : ℝ)) < ARRIVAL_THRESHOLD ∧
    (processLocationUpdate 2000 navC1 locC1).mode = NavigationMode.active ∧
    (processLocationUpdate 2000 navC1 locC1).route = some routeR := by
  have hidx : navC1.currentStepIndex = 0 := rfl
  have hlen : routeR.steps.length = 2 := rfl
  have hadv : calculateDistanceBetweenPoints (locC1.longitude, locC1.latitude)
      stepA.maneuver.location < STEP_ADVANCE_THRESHOLD := by
    have h0 : calculateDistanceBetweenPoints (locC1.longitude, locC1.latitude)
        stepA.maneuver.location = 0 := calculateDistance_self _
    rw [h0, STEP_ADVANCE_THRESHOLD]
    norm_num
  have hlt : navC1.currentStepIndex < routeR.steps.length - 1 := by
    rw [hidx, hlen]
    omega
  have harr : ¬ arrivalCondition navC1 routeR (locC1.longitude, locC1.latitude) := by
    intro h
    have h1 : routeR.steps.length - 1 ≤ navC1.currentStepIndex := h.1
    rw [hidx, hlen] at h1
    omega
  have h := processLocationUpdate_advance 2000 navC1 locC1 routeR stepA rfl rfl hadv hlt harr
  have hroute : (setOffRoute (decide ((OFF_ROUTE_THRESHOLD : WithTop ℝ) <
      distanceToRouteSegment (locC1.longitude, locC1.latitude)
        routeR.geometry.coordinates)) navC1).route = some routeR := rfl
  have h2 := updateNavigationProgress_eq 2000 (locC1.longitude, locC1.latitude)
    (stepDistanceOr0 routeR (navC1.currentStepIndex + 1)) (navC1.currentStepIndex + 1)
    _ routeR hroute
  have hdest : calculateDistanceBetweenPoints (locC1.longitude, locC1.latitude)
      ((0 : ℝ), (0.004 : ℝ)) < ARRIVAL_THRESHOLD := by
    have h0 : calculateDistanceBetweenPoints (locC1.longitude, locC1.latitude)
        ((0 : ℝ), (0.004 : ℝ)) = 0 := calculateDistance_self _
    rw [h0, ARRIVAL_THRESHOLD]
    norm_num
  refine ⟨?_, rfl, hdest, ?_, ?_⟩
  · rw [h, h2]
    rfl
  · rw [h, h2]
    rfl
  · rw [h, h2]
    rfl

/-- C1 amended: arrival fires when the pre-advancement currentStepIndex
is at the last step and the sample is within 30 m of the destination;
the state is then reset to the initial idle state with the route
cleared, and processing any further sample in that idle state (route
absent) leaves the state unchanged, so arrival cannot re-fire. -/
theorem c1_arrival_pre_advance_and_idempotent (now : ℝ) (nav : ActiveNavigationState)
    (loc : LocationPoint) (route : NavigationRoute) (st : NavigationStep)
    (hr : nav.route = some route)
    (hst : route.steps.get? nav.currentStepIndex = some st)
    (hd : nav.destination.isSome = true)
    (hlast : route.steps.length - 1 ≤ nav.currentStepIndex)
    (hclose : ∀ dest, nav.destination = some dest →
      calculateDistanceBetweenPoints (loc.longitude, loc.latitude) dest.coordinates <
        ARRIVAL_THRESHOLD) :
    processLocationUpdate now nav loc = initialNavigationState ∧
    initialNavigationState.mode = NavigationMode.idle ∧
    initialNavigationState.route = none ∧
    (∀ now2 loc2, processLocationUpdate now2 initialNavigationState loc2 =
      initialNavigationState) := by
  obtain ⟨dest, hdest⟩ := Option.isSome_iff_exists.mp hd
  have harr : arrivalCondition nav route (loc.longitude, loc.latitude) := by
    unfold arrivalCondition
    rw [hdest]
    exact ⟨hlast, hclose dest hdest⟩
  refine ⟨processLocationUpdate_arrival now nav loc route st hr hst harr, rfl, rfl, ?_⟩
  intro now2 loc2
  rfl

/-- Active state at the last step of the scenario route, used to
witness the arrival transition. -/
noncomputable def navC1w : ActiveNavigationState :=
  { mode := .active
    route := some routeR
    destination := some destR
    origin := some ((0 : ℝ), (0 : ℝ))
    currentStepIndex := 1
    distanceToNextManeuver := 600
    isOffRoute := false
    isRerouting := false
    eta := none
    remainingDistance := 600
    remainingDuration := 80 }

/-- A sample exactly at the destination of the scenario route. -/
noncomputable def locC1w : LocationPoint :=
  { latitude := 0.01, longitude := 0, timestamp := 3000 }

/-- C1 witness: the arrival theorem applied at a concrete last-step
state with a sample at the destination. -/
theorem c1_arrival_witness :
    processLocationUpdate 3000 navC1w locC1w = initialNavigationState ∧
    initialNavigationState.mode = NavigationMode.idle ∧
    initialNavigationState.route = none ∧
    (∀ now2 loc2, processLocationUpdate now2 initialNavigationState loc2 =
      initialNavigationState) :=
  c1_arrival_pre_advance_and_idempotent 3000 navC1w locC1w routeR stepB rfl rfl rfl
    (le_refl 1)
    (by
      intro dest hdest
      have hde : destR = dest := Option.some.inj hdest
      rw [← hde]
      have h0 : calculateDistanceBetweenPoints (locC1w.longitude, locC1w.latitude)
          destR.coordinates = 0 := calculateDistance_self _
      rw [h0, ARRIVAL_THRESHOLD]
      norm_num)

/-- Reduction of processLocationUpdate when neither the advancement
condition nor the arrival condition holds. -/
theorem processLocationUpdate_noadvance (now : ℝ) (nav : ActiveNavigationState)
    (loc : LocationPoint) (route : NavigationRoute) (st : NavigationStep)
    (hr : nav.route = some route)
    (hst : route.steps.get? nav.currentStepIndex = some st)
    (hcond : ¬ (calculateDistanceBetweenPoints (loc.longitude, loc.latitude)
      st.maneuver.location < STEP_ADVANCE_THRESHOLD ∧
      nav.currentStepIndex < route.steps.length - 1))
    (harr : ¬ arrivalCondition nav route (loc.longitude, loc.latitude)) :
    processLocationUpdate now nav loc =
      updateNavigationProgress now (loc.longitude, loc.latitude)
        (calculateDistanceBetweenPoints (loc.longitude, loc.latitude) st.maneuver.location)
        nav.currentStepIndex
        (setOffRoute (decide ((OFF_ROUTE_THRESHOLD : WithTop ℝ) <
          distanceToRouteSegment (loc.longitude, loc.latitude) route.geometry.coordinates)) nav) := by
  have hlen := length_ne_zero_of_get? hst
  unfold processLocationUpdate
  rw [hr]
  simp only [hlen, if_false, hst]
  rw [if_neg harr, if_neg hcond, if_pos rfl]

/-- C5: in a processed active sample the step index advances by exactly
one precisely when the sample is within 30 m of the current maneuver
and the current step is not the last; no sample ever advances the index
by more than one. -/
theorem c5_single_step_advance (now : ℝ) (nav : ActiveNavigationState) (loc : LocationPoint)
    (route : NavigationRoute) (st : NavigationStep)
    (hr : nav.route = some route)
    (hst : route.steps.get? nav.currentStepIndex = some st) :
    ((processLocationUpdate now nav loc).currentStepIndex = nav.currentStepIndex + 1 ↔
      (calculateDistanceBetweenPoints (loc.longitude, loc.latitude) st.maneuver.location <
        STEP_ADVANCE_THRESHOLD ∧ nav.currentStepIndex < route.steps.length - 1)) ∧
    (processLocationUpdate now nav loc).currentStepIndex ≤ nav.currentStepIndex + 1 := by
  by_cases harr : arrivalCondition nav route (loc.longitude, loc.latitude)
  · have h := processLocationUpdate_arrival now nav loc route st hr hst harr
    rw [h]
    have hidx0 : initialNavigationState.currentStepIndex = 0 := rfl
    rw [hidx0]
    have hlast : route.steps.length - 1 ≤ nav.currentStepIndex := by
      cases hdest : nav.destination with
      | none =>
          exfalso
          unfold arrivalCondition at harr
          rw [hdest] at harr
          exact harr
      | some dest =>
          unfold arrivalCondition at harr
          rw [hdest] at harr
          exact harr.1
    refine ⟨iff_of_false (by omega) ?_, by omega⟩
    intro hc
    omega
  · have hroute2 : (setOffRoute (decide ((OFF_ROUTE_THRESHOLD : WithTop ℝ) <
        distanceToRouteSegment (loc.longitude, loc.latitude)
          route.geometry.coordinates)) nav).route = some route := hr
    by_cases hcond : calculateDistanceBetweenPoints (loc.longitude, loc.latitude)
        st.maneuver.location < STEP_ADVANCE_THRESHOLD ∧
        nav.currentStepIndex < route.steps.length - 1
    · have h := processLocationUpdate_advance now nav loc route st hr hst hcond.1 hcond.2 harr
      rw [h, updateNavigationProgress_eq now (loc.longitude, loc.latitude)
        (stepDistanceOr0 route (nav.currentStepIndex + 1)) (nav.currentStepIndex + 1)
        _ route hroute2]
      exact ⟨iff_of_true rfl hcond, le_refl _⟩
    · have h := processLocationUpdate_noadvance now nav loc route st hr hst hcond harr
      rw [h, updateNavigationProgress_eq now (loc.longitude, loc.latitude)
        (calculateDistanceBetweenPoints (loc.longitude, loc.latitude) st.maneuver.location)
        nav.currentStepIndex _ route hroute2]
      refine ⟨iff_of_false ?_ hcond, ?_⟩
      · intro hh
        have hh2 : nav.currentStepIndex = nav.currentStepIndex + 1 := hh
        omega
      · exact Nat.le_succ nav.currentStepIndex

/-- C5 witness: the single-step-advance theorem applied at the
concrete active state navC1 with the sample at the first maneuver. -/
theorem c5_single_step_advance_witness :
    ((processLocationUpdate 2000 navC1 locC1).currentStepIndex = navC1.currentStepIndex + 1 ↔
      (calculateDistanceBetweenPoints (locC1.longitude, locC1.latitude)
        stepA.maneuver.location < STEP_ADVANCE_THRESHOLD ∧
       navC1.currentStepIndex < routeR.steps.length - 1)) ∧
    (processLocationUpdate 2000 navC1 locC1).currentStepIndex ≤ navC1.currentStepIndex + 1 :=
  c5_single_step_advance 2000 navC1 locC1 routeR stepA rfl rfl

/-- An idle state with the off-route flag raised, for the setRerouting
counterexample. -/
def navC6 : ActiveNavigationState :=
  { initialNavigationState with isOffRoute := true }

/-- C6 counterexample: setRerouting false does not leave the off-route
flag unchanged — starting from a state with off-route = true, it resets
the flag to false (the source computes
isOffRoute := isRerouting ? prev.isOffRoute : false). -/
theorem c6_setRerouting_counterexample :
    navC6.isOffRoute = true ∧ (setRerouting false navC6).isOffRoute = false :=
  ⟨rfl, rfl⟩

/-- C6 amended: setRerouting b sets the rerouting flag to b and leaves
every other field unchanged except the off-route flag, which is
preserved when b = true but forced to false when b = false; hence after
a failed reroute (setRerouting false) the off-route flag is false, not
retained. -/
theorem c6_setRerouting_amended (b : Bool) (s : ActiveNavigationState) :
    (setRerouting b s).isRerouting = b ∧
    (setRerouting b s).isOffRoute = (if b then s.isOffRoute else false) ∧
    (setRerouting true s).isOffRoute = s.isOffRoute ∧
    (setRerouting false s).isOffRoute = false ∧
    (setRerouting b s).mode = s.mode ∧
    (setRerouting b s).route = s.route ∧
    (setRerouting b s).destination = s.destination ∧
    (setRerouting b s).origin = s.origin ∧
    (setRerouting b s).currentStepIndex = s.currentStepIndex ∧
    (setRerouting b s).distanceToNextManeuver = s.distanceToNextManeuver ∧
    (setRerouting b s).eta = s.eta ∧
    (setRerouting b s).remainingDistance = s.remainingDistance ∧
    (setRerouting b s).remainingDuration = s.remainingDuration :=
  ⟨rfl, rfl, rfl, rfl, rfl, rfl, rfl, rfl, rfl, rfl, rfl, rfl, rfl⟩

/-- The last processed sample of the C7 counterexample (newer than the
incoming one). -/
noncomputable def lastC7 : LocationPoint :=
  { latitude := 0, longitude := 0, timestamp := 10000 }

/-- An older sample (timestamp 5000 < 10000) at the first maneuver of
the scenario route. -/
noncomputable def locOld : LocationPoint :=
  { latitude := 0.004, longitude := 0, timestamp := 5000 }

/-- Processing a sample at (0, 0.004) from navC1 advances the step
index to 1. -/
theorem navC1_advances (now : ℝ) (loc : LocationPoint)
    (hlng : loc.longitude = 0) (hlat : loc.latitude = 0.004) :
    (processLocationUpdate now navC1 loc).currentStepIndex = 1 := by
  have hidx : navC1.currentStepIndex = 0 := rfl
  have hlen : routeR.steps.length = 2 := rfl
  have hadv : calculateDistanceBetweenPoints (loc.longitude, loc.latitude)
      stepA.maneuver.location < STEP_ADVANCE_THRESHOLD := by
    rw [hlng, hlat]
    have h0 : calculateDistanceBetweenPoints ((0 : ℝ), (0.004 : ℝ))
        stepA.maneuver.location = 0 := calculateDistance_self _
    rw [h0, STEP_ADVANCE_THRESHOLD]
    norm_num
  have hlt : navC1.currentStepIndex < routeR.steps.length - 1 := by
    rw [hidx, hlen]
    omega
  have harr : ¬ arrivalCondition navC1 routeR (loc.longitude, loc.latitude) := by
    intro h
    have h1 : routeR.steps.length - 1 ≤ navC1.currentStepIndex := h.1
    rw [hidx, hlen] at h1
    omega
  have h := processLocationUpdate_advance now navC1 loc routeR stepA rfl rfl hadv hlt harr
  have hroute : (setOffRoute (decide ((OFF_ROUTE_THRESHOLD : WithTop ℝ) <
      distanceToRouteSegment (loc.longitude, loc.latitude)
        routeR.geometry.coordinates)) navC1).route = some routeR := rfl
  rw [h, updateNavigationProgress_eq now (loc.longitude, loc.latitude)
    (stepDistanceOr0 routeR (navC1.currentStepIndex + 1)) (navC1.currentStepIndex + 1)
    _ routeR hroute]
  rfl

/-- C7 counterexample: a sample strictly older than the last processed
one (timestamp 5000 against 10000, different coordinate) is not
ignored — it is recorded as the new last processed sample and fully
processed, here advancing the step index from 0 to 1. -/
theorem c7_stale_sample_counterexample :
    locOld.timestamp < lastC7.timestamp ∧
    (handleLocationUpdate 5000 (some lastC7) navC1 locOld).1 = some locOld ∧
    navC1.currentStepIndex = 0 ∧
    (handleLocationUpdate 5000 (some lastC7) navC1 locOld).2.currentStepIndex = 1 := by
  have hnd : ¬ isDuplicate (some lastC7) locOld := by
    intro h
    have h1 : (10000 : ℕ) = 5000 := h.1
    omega
  have hred : handleLocationUpdate 5000 (some lastC7) navC1 locOld =
      (some locOld, processLocationUpdate 5000 navC1 locOld) := by
    unfold handleLocationUpdate
    rw [if_neg hnd]
  have hts : locOld.timestamp < lastC7.timestamp := by
    show (5000 : ℕ) < 10000
    omega
  refine ⟨hts, ?_, rfl, ?_⟩
  · rw [hred]
  · rw [hred]
    exact navC1_advances 5000 locOld rfl rfl

/-- C7 amended: only a sample with the same timestamp and the same
coordinate as the previously processed one is silently ignored — the
last-processed reference and the navigation state are left completely
unchanged and no processing occurs; merely older samples are processed
normally. -/
theorem c7_duplicate_ignored (now : ℝ) (last : Option LocationPoint)
    (nav : ActiveNavigationState) (loc : LocationPoint)
    (h : isDuplicate last loc) :
    handleLocationUpdate now last nav loc = (last, nav) := by
  unfold handleLocationUpdate
  rw [if_pos h]

/-- C7 witness: feeding the exact sample lastC7 again is ignored. -/
theorem c7_duplicate_ignored_witness :
    handleLocationUpdate 10000 (some lastC7) navC1 lastC7 = (some lastC7, navC1) :=
  c7_duplicate_ignored 10000 (some lastC7) navC1 lastC7 ⟨rfl, rfl, rfl⟩

/-- C8 counterexample: startActive with no route set is a silent no-op:
the function totally returns the unchanged idle state (no exception, no
error result is modelled because the source throws none), and in
particular the mode does not change. -/
theorem c8_startActive_counterexample :
    initialNavigationState.route = none ∧
    startActiveNavigation initialNavigationState = initialNavigationState ∧
    (startActiveNavigation initialNavigationState).mode = NavigationMode.idle :=
  ⟨rfl, rfl, rfl⟩

/-- C8 amended: startActive with no route silently leaves the state
unchanged (it does not fail loudly); with a route present it sets the
mode to active. -/
theorem c8_startActive_amended (s : ActiveNavigationState) :
    (s.route = none → startActiveNavigation s = s) ∧
    (∀ r, s.route = some r →
      startActiveNavigation s = { s with mode := NavigationMode.active }) := by
  constructor
  · intro h
    unfold startActiveNavigation
    rw [h]
  · intro r h
    unfold startActiveNavigation
    rw [h]

/-- C8 witness: the amended behaviour at the idle state and at the
preview state of the scenario. -/
theorem c8_startActive_witness :
    startActiveNavigation initialNavigationState = initialNavigationState ∧
    startActiveNavigation previewR = { previewR with mode := NavigationMode.active } :=
  ⟨(c8_startActive_amended initialNavigationState).1 rfl,
   (c8_startActive_amended previewR).2 routeR rfl⟩

/-- C9: updateRoute resets the step index to 0, clears the off-route
and rerouting flags, sets distanceToNextManeuver to the new route's
first step distance, resets the remaining distance and duration to the
new route's totals with a recomputed ETA, installs the new route, and
preserves the destination and the mode. -/
theorem c9_updateRoute_resets (now : ℝ) (r : NavigationRoute) (s : ActiveNavigationState)
    (st : NavigationStep) (rest : List NavigationStep) (hsteps : r.steps = st :: rest) :
    (updateRoute now r s).currentStepIndex = 0 ∧
    (updateRoute now r s).isOffRoute = false ∧
    (updateRoute now r s).isRerouting = false ∧
    (updateRoute now r s).distanceToNextManeuver = st.distance ∧
    (updateRoute now r s).remainingDistance = r.distance ∧
    (updateRoute now r s).remainingDuration = r.duration ∧
    (updateRoute now r s).eta = some (calculateETA now r.duration) ∧
    (updateRoute now r s).route = some r ∧
    (updateRoute now r s).destination = s.destination ∧
    (updateRoute now r s).mode = s.mode := by
  refine ⟨rfl, rfl, rfl, ?_, rfl, rfl, rfl, rfl, rfl, rfl⟩
  show stepDistanceOr0 r 0 = st.distance
  unfold stepDistanceOr0
  rw [hsteps]
  rfl

/-- C9 witness: updateRoute applied to the scenario route from the
concrete active state navC1. -/
theorem c9_updateRoute_resets_witness :
    (updateRoute 0 routeR navC1).currentStepIndex = 0 ∧
    (updateRoute 0 routeR navC1).isOffRoute = false ∧
    (updateRoute 0 routeR navC1).isRerouting = false ∧
    (updateRoute 0 routeR navC1).distanceToNextManeuver = stepA.distance ∧
    (updateRoute 0 routeR navC1).remainingDistance = routeR.distance ∧
    (updateRoute 0 routeR navC1).remainingDuration = routeR.duration ∧
    (updateRoute 0 routeR navC1).eta = some (calculateETA 0 routeR.duration) ∧
    (updateRoute 0 routeR navC1).route = some routeR ∧
    (updateRoute 0 routeR navC1).destination = navC1.destination ∧
    (updateRoute 0 routeR navC1).mode = navC1.mode :=
  c9_updateRoute_resets 0 routeR navC1 stepA [stepB] rfl

/-- Modelled from the spec: the minimum over all polyline vertices of
the haversine distance from the point to the vertex (Infinity for the
empty fold). -/
noncomputable def vertexMinDistance (point : Coordinate) (polyline : List Coordinate) :
    WithTop ℝ :=
  (polyline.map (fun v => ((calculateDistanceBetweenPoints point v : ℝ) : WithTop ℝ))).foldr
    min ⊤

theorem vertexMinDistance_cons (point : Coordinate) (x : Coordinate) (l : List Coordinate) :
    vertexMinDistance point (x :: l) =
      min ((calculateDistanceBetweenPoints point x : ℝ) : WithTop ℝ)
        (vertexMinDistance point l) := rfl

theorem vertexMinDistance_le_head (point x : Coordinate) (l : List Coordinate) :
    vertexMinDistance point (x :: l) ≤
      ((calculateDistanceBetweenPoints point x : ℝ) : WithTop ℝ) := by
  rw [vertexMinDistance_cons]
  exact min_le_left _ _

/-- The segment loop computes the accumulator folded with the minimum
of the distances to all vertices. -/
theorem segmentLoop_eq_vertexMin (point : Coordinate) :
    ∀ (rest : List Coordinate) (a b : Coordinate) (acc : WithTop ℝ),
      segmentLoop point (a :: b :: rest) acc =
        min acc (vertexMinDistance point (a :: b :: rest)) := by
  intro rest
  induction rest with
  | nil =>
      intro a b acc
      simp [segmentLoop, vertexMinDistance, min_assoc]
  | cons c rest ih =>
      intro a b acc
      show segmentLoop point (b :: c :: rest)
        (min (min acc ((calculateDistanceBetweenPoints point a : ℝ) : WithTop ℝ))
          ((calculateDistanceBetweenPoints point b : ℝ) : WithTop ℝ)) = _
      rw [ih b c]
      have hX : vertexMinDistance point (b :: c :: rest) ≤
          ((calculateDistanceBetweenPoints point b : ℝ) : WithTop ℝ) :=
        vertexMinDistance_le_head point b (c :: rest)
      rw [vertexMinDistance_cons point a (b :: c :: rest)]
      rw [min_assoc (min acc _), min_comm ((calculateDistanceBetweenPoints point b : ℝ) :
        WithTop ℝ) (vertexMinDistance point (b :: c :: rest)), min_eq_left hX, min_assoc]

/-- C10: distanceToRouteSegment returns Infinity on polylines with
fewer than 2 points and otherwise equals the minimum over all polyline
vertices of the haversine distance to the point (vertex-based, not
segment projection); and a processed sample that does not arrive stores
the off-route flag exactly when that distance exceeds 50 m. -/
theorem c10_polyline_distance_offroute (point : Coordinate) (polyline : List Coordinate)
    (now : ℝ) (nav : ActiveNavigationState) (loc : LocationPoint)
    (route : NavigationRoute) (st : NavigationStep)
    (hr : nav.route = some route)
    (hst : route.steps.get? nav.currentStepIndex = some st)
    (harr : ¬ arrivalCondition nav route (loc.longitude, loc.latitude)) :
    (polyline.length < 2 → distanceToRouteSegment point polyline = ⊤) ∧
    (2 ≤ polyline.length →
      distanceToRouteSegment point polyline = vertexMinDistance point polyline) ∧
    ((processLocationUpdate now nav loc).isOffRoute = true ↔
      (OFF_ROUTE_THRESHOLD : WithTop ℝ) <
        distanceToRouteSegment (loc.longitude, loc.latitude) route.geometry.coordinates) := by
  refine ⟨?_, ?_, ?_⟩
  · intro hshort
    unfold distanceToRouteSegment
    rw [if_pos hshort]
  · intro hlong
    match polyline, hlong with
    | a :: b :: rest, _ =>
        unfold distanceToRouteSegment
        rw [if_neg (by simp), segmentLoop_eq_vertexMin point rest a b ⊤,
          min_eq_right (le_top : vertexMinDistance point (a :: b :: rest) ≤ ⊤)]
  · have hroute2 : (setOffRoute (decide ((OFF_ROUTE_THRESHOLD : WithTop ℝ) <
        distanceToRouteSegment (loc.longitude, loc.latitude)
          route.geometry.coordinates)) nav).route = some route := hr
    by_cases hcond : calculateDistanceBetweenPoints (loc.longitude, loc.latitude)
        st.maneuver.location < STEP_ADVANCE_THRESHOLD ∧
        nav.currentStepIndex < route.steps.length - 1
    · rw [processLocationUpdate_advance now nav loc route st hr hst hcond.1 hcond.2 harr,
        updateNavigationProgress_eq now (loc.longitude, loc.latitude)
          (stepDistanceOr0 route (nav.currentStepIndex + 1)) (nav.currentStepIndex + 1)
          _ route hroute2]
      exact decide_eq_true_iff
    · rw [processLocationUpdate_noadvance now nav loc route st hr hst hcond harr,
        updateNavigationProgress_eq now (loc.longitude, loc.latitude)
          (calculateDistanceBetweenPoints (loc.longitude, loc.latitude) st.maneuver.location)
          nav.currentStepIndex _ route hroute2]
      exact decide_eq_true_iff

/-- Active state without a destination, used to instantiate the
off-route theorem (the arrival test is then vacuously false). -/
noncomputable def navC10 : ActiveNavigationState :=
  { navC1 with destination := none }

/-- C10 witness: the polyline theorem applied at a one-point polyline
and at the concrete destination-free active state navC10. -/
theorem c10_polyline_distance_offroute_witness :
    (([((0 : ℝ), (0 : ℝ))] : List Coordinate).length < 2 →
      distanceToRouteSegment ((0 : ℝ), (0 : ℝ)) [((0 : ℝ), (0 : ℝ))] = ⊤) ∧
    (2 ≤ ([((0 : ℝ), (0 : ℝ))] : List Coordinate).length →
      distanceToRouteSegment ((0 : ℝ), (0 : ℝ)) [((0 : ℝ), (0 : ℝ))] =
        vertexMinDistance ((0 : ℝ), (0 : ℝ)) [((0 : ℝ), (0 : ℝ))]) ∧
    ((processLocationUpdate 0 navC10 locC1).isOffRoute = true ↔
      (OFF_ROUTE_THRESHOLD : WithTop ℝ) <
        distanceToRouteSegment (locC1.longitude, locC1.latitude)
          routeR.geometry.coordinates) :=
  c10_polyline_distance_offroute ((0 : ℝ), (0 : ℝ)) [((0 : ℝ), (0 : ℝ))] 0 navC10 locC1
    routeR stepA rfl rfl (fun h => h)

/-- Each coordinator reaction either leaves the whole state unchanged,
ends with no pending timeout, or is a processed sample followed by the
debounce effect. -/
theorem rerouteStep_timer_cases (s : CoordState) (e : RerouteEv) :
    rerouteStep s e = s ∨
    (rerouteStep s e).rerouteTimeout = none ∨
    (∃ loc, e = RerouteEv.sample loc ∧
      rerouteStep s e = rerouteEffect loc.timestamp
        { s with nav := processLocationUpdate (loc.timestamp : ℝ) s.nav loc
                 lastProcessed := some loc }) := by
  cases e with
  | sample loc =>
      by_cases hdup : isDuplicate s.lastProcessed loc
      · left
        simp only [rerouteStep]
        rw [if_pos hdup]
      · right; right
        refine ⟨loc, rfl, ?_⟩
        simp only [rerouteStep]
        rw [if_neg hdup]
  | fire t =>
      by_cases hmatch : s.rerouteTimeout = some t
      · right; left
        simp only [rerouteStep]
        rw [if_pos hmatch]
        by_cases hguard : s.isReroutingRef = true ∨ s.nav.destination = none
        · rw [if_pos hguard]
        · rw [if_neg hguard]
      · left
        simp only [rerouteStep]
        rw [if_neg hmatch]
  | resolve t result =>
      by_cases href : s.isReroutingRef = true
      · right; left
        simp only [rerouteStep]
        rw [if_pos href]
      · left
        simp only [rerouteStep]
        rw [if_neg href]
  | endNav t =>
      right; left
      simp only [rerouteStep]

/-- A fire event that changes the call count presupposes a pending
timeout scheduled exactly for that time and no request in flight. -/
theorem rerouteStep_fire_call (s : CoordState) (t : ℕ)
    (hc : (rerouteStep s (RerouteEv.fire t)).calls ≠ s.calls) :
    s.rerouteTimeout = some t ∧ s.isReroutingRef = false := by
  by_cases hmatch : s.rerouteTimeout = some t
  · by_cases hguard : s.isReroutingRef = true ∨ s.nav.destination = none
    · exfalso
      apply hc
      simp only [rerouteStep]
      rw [if_pos hmatch, if_pos hguard]
    · refine ⟨hmatch, ?_⟩
      rcases Bool.eq_false_or_eq_true s.isReroutingRef with h | h
      · exact absurd (Or.inl h) hguard
      · exact h
  · exfalso
    apply hc
    simp only [rerouteStep]
    rw [if_neg hmatch]

/-- A timeout can only be pending because the debounce effect armed it:
its deadline is the arming time plus 3000 ms and the state was
off-route and not rerouting when it was armed. -/
theorem rerouteEffect_timer (t : ℕ) (s : CoordState) (d : ℕ)
    (h : (rerouteEffect t s).rerouteTimeout = some d) :
    t + 3000 = d ∧ s.nav.isOffRoute = true ∧ s.nav.isRerouting = false := by
  by_cases hcond : s.nav.isOffRoute = true ∧ s.nav.isRerouting = false ∧
      s.lastProcessed.isSome = true
  · unfold rerouteEffect at h
    rw [if_pos hcond] at h
    have h2 : some (t + 3000) = some d := h
    exact ⟨Option.some.inj h2, hcond.1, hcond.2.1⟩
  · unfold rerouteEffect at h
    rw [if_neg hcond] at h
    have h2 : (none : Option ℕ) = some d := h
    exact Option.noConfusion h2

/-- A pending timeout with deadline d traces back to a single processed
sample at time d - 3000 whose off-route test raised the flag, after
which the whole coordinator state was left untouched by every later
event; in particular the off-route flag has been continuously true
since that sample. -/
theorem timer_origin (s0 : CoordState) (h0 : s0.rerouteTimeout = none) :
    ∀ (evs : List RerouteEv) (d : ℕ),
      (rerouteRun s0 evs).rerouteTimeout = some d →
      ∃ pre loc post,
        evs = pre ++ RerouteEv.sample loc :: post ∧
        loc.timestamp + 3000 = d ∧
        rerouteRun s0 (pre ++ [RerouteEv.sample loc]) = rerouteRun s0 evs ∧
        (rerouteRun s0 evs).nav.isOffRoute = true ∧
        (rerouteRun s0 evs).nav.isRerouting = false := by
  intro evs
  induction evs using List.reverseRecOn with
  | nil =>
      intro d hd
      rw [show rerouteRun s0 [] = s0 from rfl, h0] at hd
      exact Option.noConfusion hd
  | append_singleton evs e ih =>
      intro d hd
      have hrun : rerouteRun s0 (evs ++ [e]) = rerouteStep (rerouteRun s0 evs) e := by
        rw [rerouteRun_append]
        rfl
      rw [hrun] at hd
      rcases rerouteStep_timer_cases (rerouteRun s0 evs) e with hcase | hcase | ⟨loc, hloc, hcase⟩
      · rw [hcase] at hd
        obtain ⟨pre, l, post, hsplit, hts, hpref, hoff, hrer⟩ := ih d hd
        refine ⟨pre, l, post ++ [e], ?_, hts, ?_, ?_, ?_⟩
        · rw [hsplit]
          simp
        · rw [hrun, hcase]
          exact hpref
        · rw [hrun, hcase]
          exact hoff
        · rw [hrun, hcase]
          exact hrer
      · rw [hcase] at hd
        exact Option.noConfusion hd
      · subst hloc
        rw [hcase] at hd
        obtain ⟨hts, hoff, hrer⟩ := rerouteEffect_timer loc.timestamp _ d hd
        refine ⟨evs, loc, [], rfl, hts, rfl, ?_, ?_⟩
        · rw [hrun, hcase]
          exact hoff
        · rw [hrun, hcase]
          exact hrer

/-- C2: (1) a calculateRoute call made when the debounce timeout fires
at time t presupposes no request in flight and traces back to a sample
processed exactly at t - 3000 that raised the off-route flag, with the
whole coordinator state (hence the flag, continuously true) unchanged
by every event in between; (2) a processed sample whose off-route test
comes out false leaves no pending timeout and makes no call; (3) while
a request is in flight no event makes a second call. -/
theorem c2_reroute_debounce :
    (∀ (s0 : CoordState) (evs : List RerouteEv) (t : ℕ),
      s0.rerouteTimeout = none →
      (rerouteStep (rerouteRun s0 evs) (RerouteEv.fire t)).calls ≠ (rerouteRun s0 evs).calls →
      (rerouteRun s0 evs).isReroutingRef = false ∧
      ∃ pre loc post,
        evs = pre ++ RerouteEv.sample loc :: post ∧
        loc.timestamp + 3000 = t ∧
        rerouteRun s0 (pre ++ [RerouteEv.sample loc]) = rerouteRun s0 evs ∧
        (rerouteRun s0 evs).nav.isOffRoute = true) ∧
    (∀ (s : CoordState) (loc : LocationPoint),
      ¬ isDuplicate s.lastProcessed loc →
      (processLocationUpdate (loc.timestamp : ℝ) s.nav loc).isOffRoute = false →
      (rerouteStep s (RerouteEv.sample loc)).rerouteTimeout = none ∧
      (rerouteStep s (RerouteEv.sample loc)).calls = s.calls) ∧
    (∀ (s : CoordState) (e : RerouteEv),
      s.isReroutingRef = true → (rerouteStep s e).calls = s.calls) := by
  refine ⟨?_, ?_, ?_⟩
  · intro s0 evs t h0 hc
    obtain ⟨hmatch, href⟩ := rerouteStep_fire_call (rerouteRun s0 evs) t hc
    obtain ⟨pre, loc, post, hsplit, hts, hpref, hoff, -⟩ := timer_origin s0 h0 evs t hmatch
    exact ⟨href, pre, loc, post, hsplit, hts, hpref, hoff⟩
  · intro s loc hnd hoff
    have hncond : ¬ ((processLocationUpdate (loc.timestamp : ℝ) s.nav loc).isOffRoute = true ∧
        (processLocationUpdate (loc.timestamp : ℝ) s.nav loc).isRerouting = false ∧
        (some loc : Option LocationPoint).isSome = true) := by
      intro hc
      have h1 : (processLocationUpdate (loc.timestamp : ℝ) s.nav loc).isOffRoute = true := hc.1
      rw [hoff] at h1
      exact Bool.noConfusion h1
    constructor
    · simp only [rerouteStep]
      rw [if_neg hnd]
      exact if_neg hncond
    · simp only [rerouteStep]
      rw [if_neg hnd]
      rfl
  · intro s e href
    cases e with
    | sample loc =>
        by_cases hdup : isDuplicate s.lastProcessed loc
        · simp only [rerouteStep]
          rw [if_pos hdup]
        · simp only [rerouteStep]
          rw [if_neg hdup]
          rfl
    | fire t =>
        by_cases hmatch : s.rerouteTimeout = some t
        · simp only [rerouteStep]
          rw [if_pos hmatch, if_pos (Or.inl href)]
        · simp only [rerouteStep]
          rw [if_neg hmatch]
    | resolve t result =>
        simp only [rerouteStep]
        rw [if_pos href]
    | endNav t =>
        rfl

/-- An active, off-route navigation state with a destination but no
route (a sample processed on it early-returns, keeping the flag). -/
noncomputable def navW2 : ActiveNavigationState :=
  { initialNavigationState with
    mode := .active
    destination := some destR
    isOffRoute := true }

/-- Coordinator start state for the C2 witness: no sample seen yet, no
pending timeout, no request in flight. -/
noncomputable def sW2 : CoordState :=
  { nav := navW2, lastProcessed := none, rerouteTimeout := none,
    isReroutingRef := false, calls := 0 }

/-- The C2 witness sample, at time 5000 ms. -/
noncomputable def locW2 : LocationPoint :=
  { latitude := 0, longitude := 0, timestamp := 5000 }

/-- The armed coordinator state reached after the witness sample. -/
noncomputable def sW2armed : CoordState :=
  { nav := navW2, lastProcessed := some locW2, rerouteTimeout := some 8000,
    isReroutingRef := false, calls := 0 }

/-- Running the witness sample arms the debounce timeout for 8000 ms. -/
theorem sW2_run :
    rerouteRun sW2 [RerouteEv.sample locW2] = sW2armed := by
  have hnd : ¬ isDuplicate sW2.lastProcessed locW2 := fun h => h
  have hcond : ({ sW2 with
      nav := processLocationUpdate ((locW2.timestamp : ℕ) : ℝ) sW2.nav locW2
      lastProcessed := some locW2 } : CoordState).nav.isOffRoute = true ∧
      ({ sW2 with
      nav := processLocationUpdate ((locW2.timestamp : ℕ) : ℝ) sW2.nav locW2
      lastProcessed := some locW2 } : CoordState).nav.isRerouting = false ∧
      ({ sW2 with
      nav := processLocationUpdate ((locW2.timestamp : ℕ) : ℝ) sW2.nav locW2
      lastProcessed := some locW2 } : CoordState).lastProcessed.isSome = true :=
    ⟨rfl, rfl, rfl⟩
  show rerouteStep sW2 (RerouteEv.sample locW2) = _
  simp only [rerouteStep]
  rw [if_neg hnd]
  unfold rerouteEffect
  rw [if_pos hcond]
  rfl

/-- Firing the armed timeout at 8000 ms changes the call count. -/
theorem sW2_fire_calls :
    (rerouteStep (rerouteRun sW2 [RerouteEv.sample locW2]) (RerouteEv.fire 8000)).calls ≠
      (rerouteRun sW2 [RerouteEv.sample locW2]).calls := by
  rw [sW2_run]
  have hguard : ¬ (sW2armed.isReroutingRef = true ∨ sW2armed.nav.destination = none) := by
    intro h
    rcases h with h1 | h2
    · exact Bool.noConfusion h1
    · have h3 : some destR = none := h2
      exact Option.noConfusion h3
  have hmatch : sW2armed.rerouteTimeout = some 8000 := rfl
  simp only [rerouteStep]
  rw [if_pos hmatch, if_neg hguard]
  exact one_ne_zero

/-- C2 witness: part (1) of the debounce theorem applied to the
concrete one-sample trace that arms the timeout at 5000 ms and fires
at 8000 ms. -/
theorem c2_reroute_debounce_witness :
    (rerouteRun sW2 [RerouteEv.sample locW2]).isReroutingRef = false ∧
    ∃ pre loc post,
      [RerouteEv.sample locW2] = pre ++ RerouteEv.sample loc :: post ∧
      loc.timestamp + 3000 = 8000 ∧
      rerouteRun sW2 (pre ++ [RerouteEv.sample loc]) =
        rerouteRun sW2 [RerouteEv.sample locW2] ∧
      (rerouteRun sW2 [RerouteEv.sample locW2]).nav.isOffRoute = true :=
  c2_reroute_debounce.1 sW2 [RerouteEv.sample locW2] 8000 rfl sW2_fire_calls

/-- Active session with a pending debounce timeout and no request in
flight (cancellation demonstration). -/
noncomputable def sC4a : CoordState :=
  { nav := { navC1 with isOffRoute := true }, lastProcessed := some locW2,
    rerouteTimeout := some 9000, isReroutingRef := false, calls := 0 }

/-- Active session with a reroute request in flight. -/
noncomputable def sC4b : CoordState :=
  { nav := { navC1 with isOffRoute := true, isRerouting := true },
    lastProcessed := some locW2, rerouteTimeout := none,
    isReroutingRef := true, calls := 1 }

/-- The coordinator state right after ending the session from sC4b. -/
noncomputable def sC4end : CoordState :=
  { sC4b with
    nav := initialNavigationState
    rerouteTimeout := none }

/-- C4: ending the session does cancel a pending debounce timeout, but
a reroute response that resolves after the session ended is applied,
not discarded: updateRoute runs with no mode guard, so the now-idle
state ends up holding the new route (mode idle, route set). -/
theorem c4_late_response_applied :
    (rerouteStep sC4a (RerouteEv.endNav 9000)).rerouteTimeout = none ∧
    (rerouteStep sC4b (RerouteEv.endNav 9000)).nav = initialNavigationState ∧
    (rerouteStep (rerouteStep sC4b (RerouteEv.endNav 9000))
        (RerouteEv.resolve 12000 (some routeR))).nav.mode = NavigationMode.idle ∧
    (rerouteStep (rerouteStep sC4b (RerouteEv.endNav 9000))
        (RerouteEv.resolve 12000 (some routeR))).nav.route = some routeR := by
  have hend : rerouteStep sC4b (RerouteEv.endNav 9000) = sC4end := rfl
  have href : sC4end.isReroutingRef = true := rfl
  refine ⟨rfl, rfl, ?_, ?_⟩
  · rw [hend]
    simp only [rerouteStep]
    rw [if_pos href]
    rfl
  · rw [hend]
    simp only [rerouteStep]
    rw [if_pos href]
    rfl
